import Mathlib

/-!
Verification of the KNX TP1 sigrok protocol decoder (`pd.py`, `lists.py`).

The decoder is embedded shallowly:
* sample positions are integers (`ℤ`), the bit width `samplerate / 9600` is an
  exact rational (`ℚ`); Python's `ceil`/`floor` become `Int.ceil`/`Int.floor`;
* octet values are `ℕ` with explicit bitwise operations, as in the source;
* Python `str.format` on the label templates of `lists.py` is modelled by a
  literal substring substitution (`pyReplace`), the only feature those
  templates use;
* the stateful parts (`Decoder.decode`'s UART state machine and
  `Decoder.handle_octet`'s link framer) become explicit step functions over
  state records, returning the list of emitted records.
-/

namespace KnxTp1

/-- Uppercase hexadecimal digit characters, indexed 0..15. -/
def hexDigitChars : List Char :=
  ['0', '1', '2', '3', '4', '5', '6', '7', '8', '9', 'A', 'B', 'C', 'D', 'E', 'F']

/-- One uppercase hex digit. -/
def hexDigit (n : ℕ) : Char := hexDigitChars.getD n '0'

/-- Hex digits of `n`, most significant first; fuel-structured so the kernel
can evaluate it (fuel `n + 1` always suffices since `n / 16 < n` for `n ≥ 16`). -/
def hexCharsAux : ℕ → ℕ → List Char
  | 0, _ => []
  | fuel + 1, n =>
    if n < 16 then [hexDigit n]
    else hexCharsAux fuel (n / 16) ++ [hexDigit (n % 16)]

/-- Hex digits of `n`, most significant first. -/
def hexChars (n : ℕ) : List Char := hexCharsAux (n + 1) n

/-- Python's format `:02X`: uppercase hex, zero-padded to at least two digits. -/
def hex2 (n : ℕ) : String :=
  String.mk (List.replicate (2 - (hexChars n).length) '0' ++ hexChars n)

/-- Replace every occurrence of `pat` (non-overlapping, leftmost) in a char
list by `val`; fuel-structured so the kernel can evaluate it. -/
def replAux (pat val : List Char) : ℕ → List Char → List Char
  | _, [] => []
  | 0, s => s
  | fuel + 1, c :: cs =>
    if pat ≠ [] ∧ pat.isPrefixOf (c :: cs) then
      val ++ replAux pat val fuel (List.drop pat.length (c :: cs))
    else c :: replAux pat val fuel cs

/-- Model of Python `str.replace` / the substitution done by `str.format` on
the one placeholder a template carries. -/
def pyReplace (s pat val : String) : String :=
  String.mk (replAux pat.data val.data s.data.length s.data)

/-- The `"\x7bseqno:d\x7d"` placeholder of `lists.py`'s transport templates. -/
def seqnoPat : String := "\x7bseqno:d\x7d"

/-- The `"\x7bno\x7d"` placeholder of `lists.py`'s APCI templates. -/
def noPat : String := "\x7bno\x7d"

/-- The `"\x7bdata\x7d"` placeholder of `lists.py`'s APCI templates. -/
def dataPat : String := "\x7bdata\x7d"

/-- `lists.py` `ack_frames`, as the partial lookup `dict.get` performs. -/
def ack_frames (k : ℕ) : Option (List String) :=
  if k = 0xcc then some [("ACK" : String)]
  else if k = 0x0c then some [("NACK" : String)]
  else if k = 0xc0 then some [("BUSY" : String)]
  else if k = 0x00 then some [("NACK+BUSY" : String)]
  else none

/-- `lists.py` `priority`. -/
def priority (k : ℕ) : Option (List String) :=
  if k = 0x00 then some [("System Priority" : String), ("System" : String), ("Sys" : String)]
  else if k = 0x08 then some [("Urgent Priority" : String), ("Urgent" : String), ("Urg" : String)]
  else if k = 0x04 then some [("Normal Priority" : String), ("Normal" : String), ("Norm" : String)]
  else if k = 0x0c then some [("Low Priority" : String), ("Low" : String)]
  else none

/-- `lists.py` `t_ctrl`: transport-layer opcode templates. -/
def t_ctrl (k : ℕ) : Option (List String) :=
  if k = 0x8000 then some [("T_Data_Broadcast/T_Data_Group" : String)]
  else if k = 0x8001 then some [("T_Data_Tag_Group" : String)]
  else if k = 0x0000 then some [("T_Data_Individual" : String)]
  else if k = 0x0040 then some [("T_Data_Connected SeqNo:\x7bseqno:d\x7d" : String)]
  else if k = 0x0080 then some [("T_Connect" : String)]
  else if k = 0x0081 then some [("T_Disconnect" : String)]
  else if k = 0x00c2 then some [("T_ACK SeqNo:\x7bseqno:d\x7d" : String)]
  else if k = 0x00c3 then some [("T_NAK SeqNo:\x7bseqno:d\x7d" : String)]
  else none

/-- `lists.py` `a_ctrl`: application-layer opcode templates. -/
def a_ctrl (k : ℕ) : Option (List String) :=
  if k = 0x0000 then some [("A_GroupValue_Read" : String)]
  else if k = 0x0040 then some [("A_GroupValue_Response" : String)]
  else if k = 0x0080 then some [("A_GroupValue_Write" : String)]
  else if k = 0x00c0 then some [("A_IndividualAddress_Write" : String)]
  else if k = 0x0100 then some [("A_IndividualAddress_Read" : String)]
  else if k = 0x0140 then some [("A_IndividualAddress_Response" : String)]
  else if k = 0x0180 then some [("A_ADC_Read" : String)]
  else if k = 0x01c0 then some [("A_ADC_Response" : String)]
  else if k = 0x01c8 then some [("A_SystemNetworkParameter_Read" : String)]
  else if k = 0x01c9 then some [("A_SystemNetworkParameter_Response" : String)]
  else if k = 0x01ca then some [("A_SystemNetworkParameter_Write" : String)]
  else if k = 0x0200 then some [("A_Memory_Read" : String)]
  else if k = 0x0240 then some [("A_Memory_Response" : String)]
  else if k = 0x0280 then some [("A_Memory_Write" : String)]
  else if k = 0x02c0 then some [("A_UserMemory_Read" : String)]
  else if k = 0x02c1 then some [("A_UserMemory_Response" : String)]
  else if k = 0x02c2 then some [("A_UserMemory_Write" : String)]
  else if k = 0x02c4 then some [("A_UserMemoryBit_Write" : String)]
  else if k = 0x02c5 then some [("A_UserManufacturerInfo_Read" : String)]
  else if k = 0x02c6 then some [("A_UserManufacturerInfo_Response" : String)]
  else if k = 0x02c7 then some [("A_FunctionPropertyCommand" : String)]
  else if k = 0x02c8 then some [("A_FunctionPropertyState_Read" : String)]
  else if k = 0x02c9 then some [("A_FunctionPropertyState_Response" : String)]
  else if k = 0x02ca then some [("A_UserMsg\x7bno\x7d Data:\x7bdata\x7d" : String)]
  else if k = 0x02f8 then some [("A_ManufacturerUserMsg\x7bno\x7d Data:\x7bdata\x7d" : String)]
  else if k = 0x0300 then some [("A_DeviceDescriptor_Read" : String)]
  else if k = 0x0340 then some [("A_DeviceDescriptor_Response" : String)]
  else if k = 0x0380 then some [("A_Restart" : String)]
  else if k = 0x03d5 then some [("A_PropertyValue_Read" : String)]
  else if k = 0x03d6 then some [("A_PropertyValue_Response" : String)]
  else if k = 0x03d7 then some [("A_PropertyValue_Write" : String)]
  else if k = 0x03d8 then some [("A_PropertyDescription_Read" : String)]
  else if k = 0x03d9 then some [("A_PropertyDescription_Response" : String)]
  else if k = 0x03da then some [("A_NetworkParameter_Read" : String)]
  else if k = 0x03db then some [("A_NetworkParameter_Response" : String)]
  else if k = 0x03dc then some [("A_IndividualAddressSerialNumber_Read" : String)]
  else if k = 0x03dd then some [("A_IndividualAddressSerialNumber_Response" : String)]
  else if k = 0x03de then some [("A_IndividualAddressSerialNumber_Write" : String)]
  else none

/-- `pd.py` `get_desc` with no keyword arguments: `desc.get(key, ['Invalid',
'Inv'])`, each entry formatted with no substitution (all call sites reaching
this variant use placeholder-free templates). -/
def get_desc_plain (d : ℕ → Option (List String)) (k : ℕ) : List String :=
  (d k).getD [("Invalid" : String), ("Inv" : String)]

/-- `pd.py` `get_desc(t_ctrl, ctrl, seqno=seqno)`. -/
def get_desc_t (k seqno : ℕ) : List String :=
  (get_desc_plain t_ctrl k).map (fun s => pyReplace s seqnoPat (toString seqno))

/-- `pd.py` `get_desc(a_ctrl, key, no=no, data=data)`. -/
def get_desc_a (k no : ℕ) (data : String) : List String :=
  (get_desc_plain a_ctrl k).map
    (fun s => pyReplace (pyReplace s noPat (toString no)) dataPat data)

/-- `pd.py` `tp1_address_to_str`. -/
def tp1_address_to_str (addr : ℕ) : String :=
  toString (addr >>> 12) ++ "/" ++ toString (addr >>> 8 &&& 0xf) ++ "/" ++ toString (addr &&& 0xff)

/-- One record handed to `self.put(ss, se, self.out_ann, [tag, desc])`. -/
structure Ann where
  ss : ℤ
  se : ℤ
  tag : String
  desc : List String
deriving DecidableEq, Repr

/-- `pd.py` `Decoder.get_sample_range(numbits)`:
`(samplenum - ceil(bit_width*numbits - bit_width/12), samplenum + floor(bit_width/12))`. -/
def get_sample_range (bw : ℚ) (samplenum : ℤ) (numbits : ℕ) : ℤ × ℤ :=
  (samplenum - ⌈bw * numbits - bw / 12⌉, samplenum + ⌊bw / 12⌋)

/-- `pd.py` `Decoder.handle_apdu(apdu)`: `apdu` is the tpdu buffer of
`(ss, se, octet)` triples; emits at most one application record. -/
def handle_apdu (bw : ℚ) (apdu : List (ℤ × ℤ × ℕ)) : List Ann :=
  match apdu with
  | (_, se0, ctrl0) :: (_, se1, ctrl1) :: rest =>
    let ss : ℤ := se0 - ⌊bw * 2⌋
    let ctrl : ℕ := (ctrl0 <<< 8) &&& 0x300 ||| ctrl1
    let data : String := String.intercalate " " (rest.map (fun d => hex2 d.2.2))
    let lastSe : ℤ :=
      match rest.getLast? with
      | some d => d.2.1
      | none => se1
    if 0x2ca ≤ ctrl ∧ ctrl ≤ 0x2f7 then
      let no := ctrl - 0x2ca
      [⟨ss, lastSe, "application", get_desc_a (ctrl - no) no data⟩]
    else if 0x2f8 ≤ ctrl ∧ ctrl ≤ 0x2fe then
      let no := ctrl - 0x2f8
      [⟨ss, lastSe, "application", get_desc_a (ctrl - no) no data⟩]
    else
      [⟨ss, se1, "application", get_desc_plain a_ctrl ctrl⟩]
  | _ => []

/-- The APCI resolution step inside `handle_apdu` (the three-way branch on
`ctrl` after the `0x2ca..0x2f7` / `0x2f8..0x2fe` sub-range tests). -/
def apdu_desc (ctrl : ℕ) (data : String) : List String :=
  if 0x2ca ≤ ctrl ∧ ctrl ≤ 0x2f7 then
    let no := ctrl - 0x2ca
    get_desc_a (ctrl - no) no data
  else if 0x2f8 ≤ ctrl ∧ ctrl ≤ 0x2fe then
    let no := ctrl - 0x2f8
    get_desc_a (ctrl - no) no data
  else get_desc_plain a_ctrl ctrl

/-- `pd.py` `Decoder.handle_tpdu(tpdu)`; `atf` is the decoder's `self.at`
flag set while parsing octet 5 of the frame. Returns the records emitted,
application (from the nested `handle_apdu` call) before transport, as the
source `put`s them. -/
def handle_tpdu (bw : ℚ) (atf : Bool) (tpdu : List (ℤ × ℤ × ℕ)) : List Ann :=
  match tpdu with
  | [] => []
  | (ss, se0, c0) :: rest =>
    let ctrl0 : ℕ := if atf then c0 ||| 0x8000 else c0
    let ctrl1 : ℕ := if ctrl0 &&& 0x80 = 0 then ctrl0 &&& 0x80fc else ctrl0
    let se : ℤ := if ctrl0 &&& 0x80 = 0 then se0 - ⌊bw * 2⌋ else se0
    let apduAnns : List Ann :=
      if ctrl0 &&& 0x80 = 0 then handle_apdu bw ((ss, se0, c0) :: rest) else []
    let seqno : ℕ := if ctrl1 &&& 0x40 ≠ 0 then ctrl1 >>> 2 &&& 0xf else 0
    let ctrl2 : ℕ := if ctrl1 &&& 0x40 ≠ 0 then ctrl1 &&& 0x80c3 else ctrl1
    apduAnns ++ [⟨ss, se, "transport", get_desc_t ctrl2 seqno⟩]

/-- The cross-octet state of the link framer (`pd.py` `Decoder`): `octet_num`,
`last_ss`, `last_octet`, `length`, `last_frame_se` are initialised by
`reset()`; `fcs`, `sa`, `da`, `atf` (source: `self.at`), `tpdu` are first
assigned while processing octet 0 of a frame, before any read — the defaults
given by `LinkState.reset` for them are inert. -/
structure LinkState where
  octet_num : ℕ
  last_ss : ℤ
  last_octet : ℕ
  length : ℕ
  last_frame_se : ℤ
  fcs : ℕ
  sa : Option ℕ
  da : Option ℕ
  atf : Bool
  tpdu : List (ℤ × ℤ × ℕ)
deriving DecidableEq, Repr

/-- `pd.py` `Decoder.reset()` (the fields it touches; see `LinkState`). -/
def LinkState.reset : LinkState :=
  ⟨0, 0, 0, 0, 0, 0, none, none, false, []⟩

/-- The common tail of `handle_octet`:
`self.fcs ^= octet; self.last_ss = ss; self.last_octet = octet; self.octet_num += 1`. -/
def handle_octet_tail (st : LinkState) (octet : ℕ) (ss : ℤ) : LinkState :=
  { st with
      fcs := st.fcs ^^^ octet
      last_ss := ss
      last_octet := octet
      octet_num := st.octet_num + 1 }

/-- The per-octet dispatch of `pd.py` `Decoder.handle_octet` after the idle
gap check, with the sample range already computed. Returns the new state and
the records emitted. -/
def handle_octet_body (bw : ℚ) (st : LinkState) (octet : ℕ) (ss se : ℤ) :
    LinkState × List Ann :=
  let st := { st with last_frame_se := se }
  if st.octet_num = 0 then
    let st := { st with
      fcs := 0xff, sa := none, da := none, length := 0, atf := false, tpdu := [] }
    let desc : List String :=
      if octet &&& 0x33 = 0 then get_desc_plain ack_frames octet
      else if octet = 0xf0 then [("Poll Data Frame" : String)]
      else if octet &&& 0x80 ≠ 0 then
        let repeated : String := if octet &&& 0x20 ≠ 0 then "" else "Repeated "
        let prio : String := (get_desc_plain priority (octet &&& 0x0c)).headD ""
        [repeated ++ "Data Standard Frame, " ++ prio]
      else [("Data Extended Frame" : String)]
    let anns : List Ann := [⟨ss, se, "link", desc⟩]
    if octet &&& 0x33 = 0 then (st, anns)
    else (handle_octet_tail st octet ss, anns)
  else if st.octet_num = 2 then
    let sa := st.last_octet <<< 8 ||| octet
    (handle_octet_tail { st with sa := some sa } octet ss,
     [⟨st.last_ss, se, "link", [("Source Address:" ++ tp1_address_to_str sa : String)]⟩])
  else if st.octet_num = 4 then
    let da := st.last_octet <<< 8 ||| octet
    (handle_octet_tail { st with da := some da } octet ss,
     [⟨st.last_ss, se, "link", [("Destination Address:" ++ tp1_address_to_str da : String)]⟩])
  else if st.octet_num = 5 then
    let length := octet &&& 15
    let atf := octet &&& 0x80 ≠ 0
    let hc := octet >>> 4 &&& 7
    let atStr : String := if octet &&& 0x80 ≠ 0 then "Group Address" else "Individal Address"
    (handle_octet_tail { st with length := length, atf := atf } octet ss,
     [⟨ss, se, "link",
       [atStr ++ ", Hop count:" ++ toString hc ++ ", Length:" ++ toString length]⟩])
  else if 5 < st.octet_num ∧ st.octet_num ≤ st.length + 6 then
    (handle_octet_tail { st with tpdu := st.tpdu ++ [(ss, se, octet)] } octet ss, [])
  else if st.octet_num = 7 + st.length then
    if st.fcs = octet then
      (handle_octet_tail st octet ss,
       handle_tpdu bw st.atf st.tpdu ++ [⟨ss, se, "link", [("FCS OK" : String)]⟩])
    else
      (handle_octet_tail st octet ss,
       [⟨ss, se, "link",
         [("FCS error (expected " ++ hex2 st.fcs ++ ")" : String), ("FCS error" : String)]⟩])
  else (handle_octet_tail st octet ss, [])

/-- `pd.py` `Decoder.handle_octet(octet)` entire: computes the octet's sample
range from the current sample number, applies the 10-bit-time idle
resynchronisation, then dispatches. -/
def handle_octet (bw : ℚ) (st : LinkState) (octet : ℕ) (samplenum : ℤ) :
    LinkState × List Ann :=
  let p := get_sample_range bw samplenum 8
  let st :=
    if ((p.1 : ℚ) > (st.last_frame_se : ℚ) + bw * 10) then { st with octet_num := 0 }
    else st
  handle_octet_body bw st octet p.1 p.2

/-- Feeding a sequence of octets (with their sample ranges) through
`handle_octet_body`: the octets of one frame, arriving with no idle gap. -/
def runFrame (bw : ℚ) (st : LinkState) : List (ℤ × ℤ × ℕ) → LinkState × List Ann
  | [] => (st, [])
  | (ss, se, o) :: rest =>
    let r1 := handle_octet_body bw st o ss se
    let r2 := runFrame bw r1.1 rest
    (r2.1, r1.2 ++ r2.2)

/-- XOR of a list of octets. -/
def xorList (l : List ℕ) : ℕ := l.foldr (fun a b => a ^^^ b) 0

/-- The UART-level state of `pd.py` `Decoder.decode`'s `while True` loop:
`self.state` together with the per-character variables `bitnum`, `parity`,
`byte` that are live in states `DATA` and `PARITY`. -/
inductive UState where
  | idle
  | data (bitnum par byte : ℕ)
  | par (p : ℕ)
  | stop
deriving DecidableEq, Repr

/-- What one loop iteration of `Decoder.decode` makes observable: a bit-level
or octet-level record (`putb`/`putd`), the binary octet (`putbinary`), or the
call `self.handle_octet(self.byte)` handing the octet to the link framer. -/
inductive UEvent where
  | ann (tag : String) (desc : List String)
  | binary (byte : ℕ)
  | octet (byte : ℕ)
deriving DecidableEq, Repr

/-- The LSB-first shift of `Decoder.decode`'s DATA state:
`self.byte = (rxtx << 8 | self.byte) >> 1`. -/
def uart_shift (byte b : ℕ) : ℕ := (b <<< 8 ||| byte) >>> 1

/-- One iteration of the `Decoder.decode` state machine, consuming the one
bit `sample_bit()` returned for the current bit period. In `IDLE` the source
first blocks in `wait` for the start-bit edge; the iteration starts at the
following `sample_bit()` call. -/
def decode_step : UState → ℕ → UState × List UEvent
  | .idle, rxtx =>
    if rxtx = 0 then
      (.data 0 0 0, [.ann "start" [("Start bit" : String), ("Start" : String), ("S" : String)]])
    else (.idle, [])
  | .data bitnum par byte, rxtx =>
    let ev : UEvent := .ann "data" (if rxtx ≠ 0 then [("1" : String)] else [("0" : String)])
    let byte1 := uart_shift byte rxtx
    let bitnum1 := bitnum + 1
    let par1 := par ^^^ rxtx
    if bitnum1 = 8 then
      (.par par1, [ev, .ann "raw" [hex2 byte1], .binary byte1, .octet byte1])
    else (.data bitnum1 par1 byte1, [ev])
  | .par p, rxtx =>
    let p1 := p ^^^ rxtx
    (.stop,
     [if p1 = 0 then
        UEvent.ann "parity-ok" [("Parity bit" : String), ("Parity" : String), ("P" : String)]
      else
        UEvent.ann "parity-err"
          [("Parity error" : String), ("Parity err" : String), ("PE" : String)]])
  | .stop, rxtx =>
    (.idle,
     [if rxtx ≠ 0 then
        UEvent.ann "stop-ok" [("Stop bit" : String), ("Stop" : String), ("T" : String)]
      else
        UEvent.ann "stop-err"
          [("Stop bit error" : String), ("Stop err" : String), ("TE" : String)]])

/-- Iterating `decode_step` over a list of sampled bits. -/
def uartRun (st : UState) : List ℕ → UState × List UEvent
  | [] => (st, [])
  | b :: rest =>
    let r1 := decode_step st b
    let r2 := uartRun r1.1 rest
    (r2.1, r1.2 ++ r2.2)

/-- Is the event the delivery of an octet to the link framer? -/
def isOctetEv : UEvent → Bool
  | .octet _ => true
  | _ => false

/-- Is the event one of the two parity-bit records? -/
def isParityAnn : UEvent → Bool
  | .ann t _ => t == "parity-ok" || t == "parity-err"
  | _ => false

/-- Is the event one of the two stop-bit records? -/
def isStopAnn : UEvent → Bool
  | .ann t _ => t == "stop-ok" || t == "stop-err"
  | _ => false

/-- The byte the DATA state accumulates from the eight data bits, LSB first. -/
def reconstructByte (bits : List ℕ) : ℕ := bits.foldl uart_shift 0

/-- An error surfaced by running `Decoder.decode`'s prologue: Python raises
`NameError` when a `raise` statement names an undefined identifier, and
`SamplerateError` is the exception class `pd.py` defines at module level. -/
inductive PyError where
  | nameError (undefined : String)
  | samplerateError (msg : String)
deriving DecidableEq, Repr

/-- The guard at the top of `Decoder.decode`:
`if not self.samplerate: raise SampleRateError('Cannot decode without samplerate.')`.
The module defines the class `SamplerateError` (pd.py:32) but the `raise`
names `SampleRateError`, which is undefined, so evaluating the statement
raises `NameError` for that identifier instead. `none` stands for a missing
samplerate; `some 0` is also falsy in Python. -/
def decode_samplerate_guard (samplerate : Option ℚ) : Except PyError Unit :=
  match samplerate with
  | none => .error (.nameError "SampleRateError")
  | some r => if r = 0 then .error (.nameError "SampleRateError") else .ok ()

/-- Setting the pseudo-bit `0x8000` does not disturb the `0x80` data-bit test
in `handle_tpdu`. -/
theorem or_hi_and_lo (c : ℕ) : (c ||| 0x8000) &&& 0x80 = c &&& 0x80 := by
  apply Nat.eq_of_testBit_eq
  intro i
  simp only [Nat.testBit_and, Nat.testBit_or]
  by_cases hi : i = 7
  · subst hi
    have h1 : Nat.testBit 0x8000 7 = false := by decide
    simp [h1]
  · have h80 : Nat.testBit 0x80 i = false := by
      have h2 : (0x80 : ℕ) = 2 ^ 7 := by norm_num
      rw [h2, Nat.testBit_two_pow]
      simp [Ne.symm hi]
    simp [h80]

/-- Running a frame splits over list append. -/
theorem runFrame_append (bw : ℚ) (l1 l2 : List (ℤ × ℤ × ℕ)) : ∀ st : LinkState,
    runFrame bw st (l1 ++ l2) =
      ((runFrame bw (runFrame bw st l1).1 l2).1,
       (runFrame bw st l1).2 ++ (runFrame bw (runFrame bw st l1).1 l2).2) := by
  induction l1 with
  | nil => intro st; simp [runFrame]
  | cons x rest ih =>
    intro st
    rcases x with ⟨ss, se, o⟩
    simp [runFrame, ih]

/-- At a payload position (`5 < octet_num ≤ length + 6`) the dispatch appends
the octet to the tpdu buffer, emits nothing, and runs the common tail. -/
theorem body_tpdu_step (bw : ℚ) (st : LinkState) (o : ℕ) (ss se : ℤ)
    (h6 : 6 ≤ st.octet_num) (hle : st.octet_num ≤ st.length + 6) :
    handle_octet_body bw st o ss se =
      (LinkState.mk (st.octet_num + 1) ss o st.length se (st.fcs ^^^ o) st.sa st.da st.atf
        (st.tpdu ++ [(ss, se, o)]), []) := by
  have hk0 : ¬ st.octet_num = 0 := by omega
  have hk2 : ¬ st.octet_num = 2 := by omega
  have hk4 : ¬ st.octet_num = 4 := by omega
  have hk5 : ¬ st.octet_num = 5 := by omega
  have hkt : 5 < st.octet_num ∧ st.octet_num ≤ st.length + 6 := ⟨by omega, hle⟩
  simp [handle_octet_body, handle_octet_tail, hk0, hk2, hk4, hk5, hkt]

/-- Running the payload positions of a frame: `octet_num` advances by the
number of octets, `length` and `atf` are untouched, the running `fcs`
accumulates the octets by XOR, the tpdu buffer accumulates the triples in
order, and nothing is emitted. -/
theorem runFrame_tpdu (bw : ℚ) :
    ∀ (mid : List (ℤ × ℤ × ℕ)) (st : LinkState),
      6 ≤ st.octet_num → st.octet_num + mid.length ≤ st.length + 7 →
      ((runFrame bw st mid).1.octet_num = st.octet_num + mid.length ∧
       (runFrame bw st mid).1.length = st.length ∧
       (runFrame bw st mid).1.atf = st.atf ∧
       (runFrame bw st mid).1.fcs = st.fcs ^^^ xorList (mid.map (fun e => e.2.2)) ∧
       (runFrame bw st mid).1.tpdu = st.tpdu ++ mid ∧
       (runFrame bw st mid).2 = []) := by
  intro mid
  induction mid with
  | nil =>
    intro st h6 hub
    simp [runFrame, xorList]
  | cons x rest ih =>
    intro st h6 hub
    rcases x with ⟨ss, se, o⟩
    simp only [List.length_cons] at hub
    have hstep := body_tpdu_step bw st o ss se h6 (by omega)
    have ihx := ih (LinkState.mk (st.octet_num + 1) ss o st.length se (st.fcs ^^^ o) st.sa
        st.da st.atf (st.tpdu ++ [(ss, se, o)]))
      (by simp; omega) (by simp; omega)
    obtain ⟨i1, i2, i3, i4, i5, i6⟩ := ihx
    simp only at i1 i2 i3 i4 i5 i6
    simp only [runFrame, hstep]
    refine ⟨?_, ?_, ?_, ?_, ?_, ?_⟩
    · simp [i1]; omega
    · simp [i2]
    · simp [i3]
    · simp [i4, xorList, Nat.xor_assoc]
    · simp [i5]
    · simp [i6]

/-- The state after the six header octets of a standard data frame, starting
from reset: positions 0 (control, not an ACK), 1/2 (source), 3/4
(destination), 5 (AT flag, hop count, length). -/
theorem run_header (bw : ℚ) (o0 o1 o2 o3 o4 o5 : ℕ)
    (ss0 se0 ss1 se1 ss2 se2 ss3 se3 ss4 se4 ss5 se5 : ℤ)
    (h0 : o0 &&& 0x33 ≠ 0) :
    (runFrame bw LinkState.reset
      [(ss0, se0, o0), (ss1, se1, o1), (ss2, se2, o2), (ss3, se3, o3), (ss4, se4, o4),
       (ss5, se5, o5)]).1 =
    LinkState.mk 6 ss5 o5 (o5 &&& 15) se5
      (0xff ^^^ o0 ^^^ o1 ^^^ o2 ^^^ o3 ^^^ o4 ^^^ o5)
      (some (o1 <<< 8 ||| o2)) (some (o3 <<< 8 ||| o4)) (decide (o5 &&& 0x80 ≠ 0)) [] := by
  simp [runFrame, handle_octet_body, handle_octet_tail, LinkState.reset, h0]

/-- Every record emitted while parsing the six header octets carries the
`link` tag. -/
theorem run_header_tags (bw : ℚ) (o0 o1 o2 o3 o4 o5 : ℕ)
    (ss0 se0 ss1 se1 ss2 se2 ss3 se3 ss4 se4 ss5 se5 : ℤ)
    (h0 : o0 &&& 0x33 ≠ 0) :
    ((runFrame bw LinkState.reset
      [(ss0, se0, o0), (ss1, se1, o1), (ss2, se2, o2), (ss3, se3, o3), (ss4, se4, o4),
       (ss5, se5, o5)]).2.all (fun a => a.tag == "link")) = true := by
  simp [runFrame, handle_octet_body, handle_octet_tail, LinkState.reset, h0]

/-- At the FCS position (`octet_num = 7 + length`) the dispatch emits
`FCS OK` preceded by the dissector output, or the `FCS error` record alone. -/
theorem body_fcs_step (bw : ℚ) (st : LinkState) (o : ℕ) (ss se : ℤ)
    (h : st.octet_num = 7 + st.length) :
    (handle_octet_body bw st o ss se).2 =
      (if st.fcs = o then
        handle_tpdu bw st.atf st.tpdu ++ [⟨ss, se, "link", [("FCS OK" : String)]⟩]
       else
        [⟨ss, se, "link",
          [("FCS error (expected " ++ hex2 st.fcs ++ ")" : String), ("FCS error" : String)]⟩]) := by
  have hk0 : ¬ st.octet_num = 0 := by omega
  have hk2 : ¬ st.octet_num = 2 := by omega
  have hk4 : ¬ st.octet_num = 4 := by omega
  have hk5 : ¬ st.octet_num = 5 := by omega
  have hkt : ¬ (5 < st.octet_num ∧ st.octet_num ≤ st.length + 6) := by omega
  simp only [handle_octet_body, handle_octet_tail]
  rw [if_neg, if_neg, if_neg, if_neg, if_neg, if_pos]
  · split <;> rfl
  · exact h
  · exact hkt
  · exact hk5
  · exact hk4
  · exact hk2
  · exact hk0

/-- C1: for every UART character (start bit, eight data bits, parity bit,
stop bit), the reconstructed octet is delivered to the link framer exactly
once, at the eighth data bit, whatever the parity and stop bits turn out to
be; the parity and stop bits each still produce their ok/error record. The
source calls `handle_octet` inside the DATA state at `bitnum == 8`, before
the parity and stop bits are sampled, so parity or stop errors do not
suppress the delivery. -/
theorem C1_octet_delivered_at_eighth_data_bit (b0 b1 b2 b3 b4 b5 b6 b7 p s : ℕ) :
    ((uartRun .idle [0, b0, b1, b2, b3, b4, b5, b6, b7, p, s]).2.filter isOctetEv
      = [UEvent.octet (reconstructByte [b0, b1, b2, b3, b4, b5, b6, b7])]) ∧
    ((uartRun .idle [0, b0, b1, b2, b3, b4, b5, b6, b7, p, s]).2.filter isParityAnn
      = [if b0 ^^^ b1 ^^^ b2 ^^^ b3 ^^^ b4 ^^^ b5 ^^^ b6 ^^^ b7 = p then
           UEvent.ann "parity-ok" [("Parity bit" : String), ("Parity" : String), ("P" : String)]
         else
           UEvent.ann "parity-err"
             [("Parity error" : String), ("Parity err" : String), ("PE" : String)]]) ∧
    ((uartRun .idle [0, b0, b1, b2, b3, b4, b5, b6, b7, p, s]).2.filter isStopAnn
      = [if s ≠ 0 then
           UEvent.ann "stop-ok" [("Stop bit" : String), ("Stop" : String), ("T" : String)]
         else
           UEvent.ann "stop-err"
             [("Stop bit error" : String), ("Stop err" : String), ("TE" : String)]]) := by
  by_cases hp : b0 ^^^ b1 ^^^ b2 ^^^ b3 ^^^ b4 ^^^ b5 ^^^ b6 ^^^ b7 = p <;>
    by_cases hs : s = 0 <;>
      simp [uartRun, decode_step, uart_shift, reconstructByte, isOctetEv, isParityAnn,
        isStopAnn, hp, hs]

/-- C1, counterexample to the claim as stated: a character whose parity bit
is wrong (eight 0 data bits followed by parity bit 1) produces the
`parity-err` record, yet its octet was already delivered to the link framer. -/
theorem C1_parity_error_octet_still_delivered :
    (UEvent.octet 0 ∈ (uartRun .idle [0, 0, 0, 0, 0, 0, 0, 0, 0, 1, 1]).2) ∧
    (UEvent.ann "parity-err"
        [("Parity error" : String), ("Parity err" : String), ("PE" : String)]
      ∈ (uartRun .idle [0, 0, 0, 0, 0, 0, 0, 0, 0, 1, 1]).2) := by
  decide

/-- C2: for a standard data frame (first octet not of the ACK class) whose
payload holds `(octet5 &&& 15) + 1` octets, the state reached after header
and payload sits at the FCS position `7 + length` with the tpdu buffer equal
to the payload triples and the running `fcs` equal to the XOR of all
preceding frame octets seeded with `0xFF`; the FCS octet then yields
`FCS OK` preceded by the TPDU dissector output on that buffer iff the
running value equals the received octet, and otherwise the single record
`FCS error (expected HH)` with `HH` the expected value in two-digit
uppercase hex — no transport or application record is emitted anywhere in
the frame in that case. -/
theorem C2_fcs_law (bw : ℚ) (o0 o1 o2 o3 o4 o5 oF : ℕ)
    (ss0 se0 ss1 se1 ss2 se2 ss3 se3 ss4 se4 ss5 se5 ssF seF : ℤ)
    (mid : List (ℤ × ℤ × ℕ)) (st : LinkState)
    (h0 : o0 &&& 0x33 ≠ 0)
    (hmid : mid.length = (o5 &&& 15) + 1)
    (hst : st = (runFrame bw LinkState.reset
      ((ss0, se0, o0) :: (ss1, se1, o1) :: (ss2, se2, o2) :: (ss3, se3, o3) :: (ss4, se4, o4) ::
       (ss5, se5, o5) :: mid)).1) :
    st.octet_num = 7 + st.length ∧
    st.length = o5 &&& 15 ∧
    st.tpdu = mid ∧
    st.fcs = 0xff ^^^ xorList (o0 :: o1 :: o2 :: o3 :: o4 :: o5 :: mid.map (fun e => e.2.2)) ∧
    ((runFrame bw LinkState.reset
      ((ss0, se0, o0) :: (ss1, se1, o1) :: (ss2, se2, o2) :: (ss3, se3, o3) :: (ss4, se4, o4) ::
       (ss5, se5, o5) :: mid)).2.all (fun a => a.tag == "link")) = true ∧
    (handle_octet_body bw st oF ssF seF).2 =
      (if st.fcs = oF then
        handle_tpdu bw st.atf mid ++ [⟨ssF, seF, "link", [("FCS OK" : String)]⟩]
       else
        [⟨ssF, seF, "link",
          [("FCS error (expected " ++ hex2 st.fcs ++ ")" : String), ("FCS error" : String)]⟩]) := by
  have hl : ((ss0, se0, o0) :: (ss1, se1, o1) :: (ss2, se2, o2) :: (ss3, se3, o3) ::
      (ss4, se4, o4) :: (ss5, se5, o5) :: mid)
      = [(ss0, se0, o0), (ss1, se1, o1), (ss2, se2, o2), (ss3, se3, o3), (ss4, se4, o4),
         (ss5, se5, o5)] ++ mid := rfl
  have happ := runFrame_append bw
    [(ss0, se0, o0), (ss1, se1, o1), (ss2, se2, o2), (ss3, se3, o3), (ss4, se4, o4),
     (ss5, se5, o5)] mid LinkState.reset
  have hh := run_header bw o0 o1 o2 o3 o4 o5 ss0 se0 ss1 se1 ss2 se2 ss3 se3 ss4 se4 ss5 se5 h0
  have hm := runFrame_tpdu bw mid
    (LinkState.mk 6 ss5 o5 (o5 &&& 15) se5
      (0xff ^^^ o0 ^^^ o1 ^^^ o2 ^^^ o3 ^^^ o4 ^^^ o5)
      (some (o1 <<< 8 ||| o2)) (some (o3 <<< 8 ||| o4)) (decide (o5 &&& 0x80 ≠ 0)) [])
    (by simp) (by simp; omega)
  obtain ⟨i1, i2, i3, i4, i5, i6⟩ := hm
  simp only at i1 i2 i3 i4 i5 i6
  have hst' : st = (runFrame bw
      (LinkState.mk 6 ss5 o5 (o5 &&& 15) se5
        (0xff ^^^ o0 ^^^ o1 ^^^ o2 ^^^ o3 ^^^ o4 ^^^ o5)
        (some (o1 <<< 8 ||| o2)) (some (o3 <<< 8 ||| o4)) (decide (o5 &&& 0x80 ≠ 0)) [])
      mid).1 := by
    rw [hst, hl, happ, hh]
  have e1 : st.octet_num = 6 + mid.length := by rw [hst']; exact i1
  have e2 : st.length = o5 &&& 15 := by rw [hst']; exact i2
  have e4 : st.fcs = (0xff ^^^ o0 ^^^ o1 ^^^ o2 ^^^ o3 ^^^ o4 ^^^ o5) ^^^
      xorList (mid.map (fun e => e.2.2)) := by rw [hst']; exact i4
  have e5 : st.tpdu = mid := by rw [hst']; rw [i5]; simp
  have hnum : st.octet_num = 7 + st.length := by omega
  refine ⟨hnum, e2, e5, ?_, ?_, ?_⟩
  · rw [e4]
    simp [xorList, Nat.xor_assoc]
  · rw [hl, happ]
    simp only [List.all_append]
    rw [run_header_tags bw o0 o1 o2 o3 o4 o5 ss0 se0 ss1 se1 ss2 se2 ss3 se3 ss4 se4 ss5 se5 h0]
    rw [hh, i6]
    simp
  · rw [body_fcs_step bw st oF ssF seF hnum, e5]

/-- The payload triples of the concrete frame `BC 11 01 09 01 E1 00 81`
placed at 100 samples per octet (bit width 10). -/
def s3mid : List (ℤ × ℤ × ℕ) := [(600, 680, 0x00), (700, 780, 0x81)]

/-- The link framer state after the header and payload of that frame. -/
def s3state : LinkState :=
  (runFrame 10 LinkState.reset
    ((0, 80, 0xbc) :: (100, 180, 0x11) :: (200, 280, 0x01) :: (300, 380, 0x09) ::
     (400, 480, 0x01) :: (500, 580, 0xe1) :: s3mid)).1

/-- C2, witness: the FCS law instantiated on the concrete frame
`BC 11 01 09 01 E1 00 81` followed by FCS octet `3B`. -/
theorem C2_fcs_law_witness :
    ((0xbc : ℕ) &&& 0x33 ≠ 0) ∧
    (s3mid.length = ((0xe1 : ℕ) &&& 15) + 1) ∧
    (s3state.octet_num = 7 + s3state.length ∧
     s3state.length = 0xe1 &&& 15 ∧
     s3state.tpdu = s3mid ∧
     s3state.fcs =
       0xff ^^^ xorList (0xbc :: 0x11 :: 0x01 :: 0x09 :: 0x01 :: 0xe1 ::
         s3mid.map (fun e => e.2.2)) ∧
     ((runFrame 10 LinkState.reset
        ((0, 80, 0xbc) :: (100, 180, 0x11) :: (200, 280, 0x01) :: (300, 380, 0x09) ::
         (400, 480, 0x01) :: (500, 580, 0xe1) :: s3mid)).2.all
       (fun a => a.tag == "link")) = true ∧
     (handle_octet_body 10 s3state 0x3b 800 880).2 =
       (if s3state.fcs = 0x3b then
         handle_tpdu 10 s3state.atf s3mid ++ [⟨800, 880, "link", [("FCS OK" : String)]⟩]
        else
         [⟨800, 880, "link",
           [("FCS error (expected " ++ hex2 s3state.fcs ++ ")" : String),
            ("FCS error" : String)]⟩])) :=
  ⟨by decide, by decide,
   C2_fcs_law 10 0xbc 0x11 0x01 0x09 0x01 0xe1 0x3b 0 80 100 180 200 280 300 380 400 480
     500 580 800 880 s3mid s3state (by decide) (by decide) rfl⟩

/-- C3: on a frame whose tpdu is the two octets `0x54 0x41` with the AT flag
clear, the TPDU dissector emits the transport record
`T_Data_Connected SeqNo:5` (seqno `(0x54 >> 2) & 0xF = 5`), while the APDU
dissector resolves `actrl = ((0x54 << 8) & 0x300) | 0x41 = 0x041`, which is
not a key of `a_ctrl` (the table holds `0x040`), so the application record
carries `['Invalid', 'Inv']`, not `A_GroupValue_Response`. -/
theorem C3_tpdu_54_41_labels (bw : ℚ) (ss0 se0 ss1 se1 : ℤ) :
    handle_tpdu bw false [(ss0, se0, 0x54), (ss1, se1, 0x41)] =
      [⟨se0 - ⌊bw * 2⌋, se1, "application", [("Invalid" : String), ("Inv" : String)]⟩,
       ⟨ss0, se0 - ⌊bw * 2⌋, "transport", [("T_Data_Connected SeqNo:5" : String)]⟩] := by
  rfl

/-- C3, counterexample to the claim as stated: for tpdu `0x54 0x41` the
application record reads `['Invalid', 'Inv']`; no emitted record carries
`A_GroupValue_Response`. -/
theorem C3_application_invalid_for_54_41 :
    ((handle_tpdu 10 false [((0 : ℤ), (100 : ℤ), (0x54 : ℕ)),
        ((110 : ℤ), (210 : ℤ), (0x41 : ℕ))]).map (fun a => (a.tag, a.desc))
      = [(("application" : String), [("Invalid" : String), ("Inv" : String)]),
         (("transport" : String), [("T_Data_Connected SeqNo:5" : String)])]) ∧
    ¬ ([("A_GroupValue_Response" : String)] ∈
        (handle_tpdu 10 false [((0 : ℤ), (100 : ℤ), (0x54 : ℕ)),
          ((110 : ℤ), (210 : ℤ), (0x41 : ℕ))]).map (fun a => a.desc)) := by
  decide

/-- C4: at octet positions 2 and 4 the link framer assembles the 16-bit
address big-endian from the previous and the current octet, emits one link
record spanning from the previous octet's start sample, and renders it as
`A/B/C` with `A = addr >> 12`, `B = (addr >> 8) & 0xF`, `C = addr & 0xFF`;
in particular `0x1101` renders as `1/1/1` and `0x0901` (the destination
bytes `09 01` of the frame `BC 11 01 09 01 E1 00 81 1F`) as `0/9/1`. -/
theorem C4_address_rendering :
    (∀ (bw : ℚ) (lss : ℤ) (lo len : ℕ) (lfse : ℤ) (fcs : ℕ) (sa da : Option ℕ)
        (atf : Bool) (tp : List (ℤ × ℤ × ℕ)) (o : ℕ) (ss se : ℤ),
      handle_octet_body bw ⟨2, lss, lo, len, lfse, fcs, sa, da, atf, tp⟩ o ss se =
        (⟨3, ss, o, len, se, fcs ^^^ o, some (lo <<< 8 ||| o), da, atf, tp⟩,
         [⟨lss, se, "link",
           [("Source Address:" ++ tp1_address_to_str (lo <<< 8 ||| o) : String)]⟩])) ∧
    (∀ (bw : ℚ) (lss : ℤ) (lo len : ℕ) (lfse : ℤ) (fcs : ℕ) (sa da : Option ℕ)
        (atf : Bool) (tp : List (ℤ × ℤ × ℕ)) (o : ℕ) (ss se : ℤ),
      handle_octet_body bw ⟨4, lss, lo, len, lfse, fcs, sa, da, atf, tp⟩ o ss se =
        (⟨5, ss, o, len, se, fcs ^^^ o, sa, some (lo <<< 8 ||| o), atf, tp⟩,
         [⟨lss, se, "link",
           [("Destination Address:" ++ tp1_address_to_str (lo <<< 8 ||| o) : String)]⟩])) ∧
    tp1_address_to_str 0x1101 = "1/1/1" ∧
    tp1_address_to_str 0x0901 = "0/9/1" :=
  ⟨fun _ _ _ _ _ _ _ _ _ _ _ _ _ => rfl,
   fun _ _ _ _ _ _ _ _ _ _ _ _ _ => rfl,
   by decide, by decide⟩

/-- C4, counterexample to the claim as stated: running the frame
`BC 11 01 09 01 E1 00 81 1F` through the link framer, the destination
record renders `0/9/1` (spanning samples 300..480), and no emitted record
mentions `1/1/9`. -/
theorem C4_destination_rendered_0_9_1 :
    (⟨300, 480, "link", [("Destination Address:0/9/1" : String)]⟩ ∈
      (runFrame 10 LinkState.reset
        [(0, 80, 0xbc), (100, 180, 0x11), (200, 280, 0x01), (300, 380, 0x09), (400, 480, 0x01),
         (500, 580, 0xe1), (600, 680, 0x00), (700, 780, 0x81), (800, 880, 0x1f)]).2) ∧
    ((runFrame 10 LinkState.reset
        [(0, 80, 0xbc), (100, 180, 0x11), (200, 280, 0x01), (300, 380, 0x09), (400, 480, 0x01),
         (500, 580, 0xe1), (600, 680, 0x00), (700, 780, 0x81), (800, 880, 0x1f)]).2.all
      (fun a => !(a.desc.contains ("Destination Address:1/1/9" : String))) = true) := by
  decide

/-- C5: a UART character occupies 11 bit times — 1 start bit, 8 data bits
LSB-first, 1 even-parity bit and 1 stop bit: after those eleven sampled
bits the state machine is back in IDLE, having sampled exactly one stop bit
period (one stop-ok or stop-err record). -/
theorem C5_character_eleven_bit_times (b0 b1 b2 b3 b4 b5 b6 b7 p s : ℕ) :
    ((uartRun .idle [0, b0, b1, b2, b3, b4, b5, b6, b7, p, s]).1 = UState.idle) ∧
    (((uartRun .idle [0, b0, b1, b2, b3, b4, b5, b6, b7, p, s]).2.filter isStopAnn).length
      = 1) := by
  by_cases hp : b0 ^^^ b1 ^^^ b2 ^^^ b3 ^^^ b4 ^^^ b5 ^^^ b6 ^^^ b7 = p <;>
    by_cases hs : s = 0 <;>
      simp [uartRun, decode_step, uart_shift, isStopAnn, hp, hs]

/-- C5, counterexample to the claim as stated: a valid character is 11 bit
times, not 13 — after start, eight data bits, parity and a single stop bit
the machine is already back in IDLE, with exactly one (not two) stop-bit
record emitted. -/
theorem C5_single_stop_period :
    ((uartRun .idle [0, 0, 0, 0, 0, 0, 0, 0, 0, 0, 1]).1 = UState.idle) ∧
    (((uartRun .idle [0, 0, 0, 0, 0, 0, 0, 0, 0, 0, 1]).2.filter isStopAnn).length = 1) ∧
    ¬ (((uartRun .idle [0, 0, 0, 0, 0, 0, 0, 0, 0, 0, 1]).2.filter isStopAnn).length = 2) := by
  decide

/-- C6: when the gap between this octet's start sample and the previous
octet's end sample exceeds `10 * bit_width`, `handle_octet` behaves exactly
as if `octet_num` were 0, i.e. the octet is processed as the first octet of
a new frame whatever the prior `octet_num` was. -/
theorem C6_idle_gap_resync (bw : ℚ) (st : LinkState) (o : ℕ) (n : ℤ)
    (h : ((get_sample_range bw n 8).1 : ℚ) > (st.last_frame_se : ℚ) + bw * 10) :
    handle_octet bw st o n = handle_octet bw { st with octet_num := 0 } o n := by
  rcases st with ⟨n0, lss, lo, len, lfse, fcs, sa, da, atf, tp⟩
  simp [handle_octet, h]

/-- C6, witness: with bit width 10, previous end sample 0 and the new octet
at sample 200 (start sample 120 > 0 + 100), a state mid-frame at
`octet_num = 3` is reset. -/
theorem C6_idle_gap_resync_witness :
    (((get_sample_range 10 200 8).1 : ℚ) >
      ((LinkState.mk 3 0 0 0 0 0 none none false []).last_frame_se : ℚ) + 10 * 10) ∧
    handle_octet 10 (LinkState.mk 3 0 0 0 0 0 none none false []) 0xbc 200 =
      handle_octet 10 { LinkState.mk 3 0 0 0 0 0 none none false [] with octet_num := 0 }
        0xbc 200 := by
  have hc : (⌈(10 : ℚ) * 8 - 10 / 12⌉ : ℤ) = 80 := by
    rw [Int.ceil_eq_iff]
    constructor <;> norm_num
  have hgap : ((get_sample_range 10 200 8).1 : ℚ) >
      ((LinkState.mk 3 0 0 0 0 0 none none false []).last_frame_se : ℚ) + 10 * 10 := by
    simp [get_sample_range, hc]
    norm_num
  exact ⟨hgap, C6_idle_gap_resync 10 (LinkState.mk 3 0 0 0 0 0 none none false []) 0xbc 200 hgap⟩

/-- C7: every APCI value `0x2CA + n` with `n ≤ 45` resolves through table
key `0x2CA` formatted with `no = n` and the hex payload, every value
`0x2F8 + n` with `n ≤ 6` through key `0x2F8`; an APCI value outside both
sub-ranges with no `a_ctrl` key, and a TPCI value with no `t_ctrl` key,
resolve to `['Invalid', 'Inv']` (total functions — no error is possible). -/
theorem C7_apci_subranges_and_unknown_invalid :
    (∀ n : ℕ, n ≤ 45 → ∀ data : String, apdu_desc (0x2ca + n) data = get_desc_a 0x2ca n data) ∧
    (∀ n : ℕ, n ≤ 6 → ∀ data : String, apdu_desc (0x2f8 + n) data = get_desc_a 0x2f8 n data) ∧
    (∀ (k : ℕ) (data : String), a_ctrl k = none → ¬(0x2ca ≤ k ∧ k ≤ 0x2f7) →
      ¬(0x2f8 ≤ k ∧ k ≤ 0x2fe) →
      apdu_desc k data = [("Invalid" : String), ("Inv" : String)]) ∧
    (∀ (k seqno : ℕ), t_ctrl k = none →
      get_desc_t k seqno = [("Invalid" : String), ("Inv" : String)]) := by
  refine ⟨?_, ?_, ?_, ?_⟩
  · intro n hn data
    have hin : (0x2ca ≤ 0x2ca + n ∧ 0x2ca + n ≤ 0x2f7) := ⟨by omega, by omega⟩
    have e1 : 0x2ca + n - (0x2ca + n - 0x2ca) = 0x2ca := by omega
    have e2 : 0x2ca + n - 0x2ca = n := by omega
    simp only [apdu_desc, if_pos hin]
    rw [e1, e2]
  · intro n hn data
    have hout : ¬ (0x2ca ≤ 0x2f8 + n ∧ 0x2f8 + n ≤ 0x2f7) := by omega
    have hin : (0x2f8 ≤ 0x2f8 + n ∧ 0x2f8 + n ≤ 0x2fe) := ⟨by omega, by omega⟩
    have e1 : 0x2f8 + n - (0x2f8 + n - 0x2f8) = 0x2f8 := by omega
    have e2 : 0x2f8 + n - 0x2f8 = n := by omega
    simp only [apdu_desc, if_neg hout, if_pos hin]
    rw [e1, e2]
  · intro k data h hk1 hk2
    simp [apdu_desc, if_neg hk1, if_neg hk2, get_desc_plain, h]
  · intro k seqno h
    simp [get_desc_t, get_desc_plain, h]
    constructor <;> rfl

/-- C8: entering `decode()` without a samplerate aborts before any record is
emitted, but not with the typed `SamplerateError`: the `raise` names the
undefined identifier `SampleRateError` (the class defined at pd.py:32 is
`SamplerateError`), so Python raises `NameError` instead. -/
theorem C8_missing_samplerate_raises_nameerror :
    decode_samplerate_guard none = Except.error (PyError.nameError "SampleRateError") ∧
    (∀ msg : String, PyError.nameError "SampleRateError" ≠ PyError.samplerateError msg) :=
  ⟨rfl, fun _ h => PyError.noConfusion h⟩

/-- C9: a first-frame octet of the ACK class (`octet & 0x33 == 0`) makes
`handle_octet` emit exactly one link record — the `ack_frames` lookup,
`['Invalid','Inv']` for values outside its four keys — and return early:
`octet_num` stays 0 and `last_ss`, `last_octet` are untouched, so the next
octet is again treated as a frame's first octet; but `fcs` is not left
unchanged: the first-octet prologue has already re-seeded it to `0xFF` (and
cleared `length`, `sa`, `da`, `atf`, `tpdu`). -/
theorem C9_ack_early_return (bw : ℚ) (lss : ℤ) (lo len : ℕ) (lfse : ℤ) (fcs : ℕ)
    (sa da : Option ℕ) (atf : Bool) (tp : List (ℤ × ℤ × ℕ)) (o : ℕ) (ss se : ℤ)
    (h : o &&& 0x33 = 0) :
    handle_octet_body bw ⟨0, lss, lo, len, lfse, fcs, sa, da, atf, tp⟩ o ss se =
      (⟨0, lss, lo, 0, se, 0xff, none, none, false, []⟩,
       [⟨ss, se, "link", get_desc_plain ack_frames o⟩]) := by
  simp [handle_octet_body, h]

/-- C9, witness: the ACK octet `0xCC` at `octet_num = 0`. -/
theorem C9_ack_early_return_witness :
    ((0xcc : ℕ) &&& 0x33 = 0) ∧
    handle_octet_body 10 ⟨0, 5, 7, 3, 9, 0x12, none, none, true, []⟩ 0xcc 100 180 =
      (⟨0, 5, 7, 0, 180, 0xff, none, none, false, []⟩,
       [⟨100, 180, "link", get_desc_plain ack_frames 0xcc⟩]) :=
  ⟨by decide, C9_ack_early_return 10 5 7 3 9 0x12 none none true [] 0xcc 100 180 (by decide)⟩

/-- C9, counterexample to the claim as stated: processing the ACK octet
`0xCC` from a state whose running `fcs` is `0x12` leaves `fcs = 0xFF`, not
`0x12` — `fcs` is re-seeded, not left unchanged. -/
theorem C9_fcs_reseeded_not_unchanged :
    ((handle_octet_body 10 ⟨0, 0, 0, 0, 0, 0x12, none, none, false, []⟩ 0xcc 0 80).1.fcs
      = 0xff) ∧
    ((0xff : ℕ) ≠ 0x12) := by
  decide

/-- C10: `handle_apdu` on a tpdu of fewer than two entries emits nothing (the
`len(apdu) >= 2` guard; the embedding is total, so no indexing error can
occur), and for a one-octet tpdu whose TPCI marks application data
(`tpdu[0] & 0x80 == 0`) `handle_tpdu` emits exactly one record — the
transport one, its end sample shortened by `floor(2 * bit_width)` — and no
application record. -/
theorem C10_short_tpdu_safe (bw : ℚ) (atf : Bool) (ss se : ℤ) (c : ℕ)
    (h : c &&& 0x80 = 0) :
    handle_apdu bw [(ss, se, c)] = [] ∧
    (∃ d, handle_tpdu bw atf [(ss, se, c)] = [⟨ss, se - ⌊bw * 2⌋, "transport", d⟩]) := by
  refine ⟨rfl, ?_⟩
  have h1 : handle_apdu bw [(ss, se, c)] = [] := rfl
  cases atf
  · simp [handle_tpdu, h1, h]
  · have h2 : (c ||| 0x8000) &&& 0x80 = 0 := by rw [or_hi_and_lo]; exact h
    simp [handle_tpdu, h1, h2]

/-- C10, witness: the one-octet tpdu `0x00` (T_Data_Individual TPCI). -/
theorem C10_short_tpdu_safe_witness :
    ((0 : ℕ) &&& 0x80 = 0) ∧
    (handle_apdu 10 [((0 : ℤ), (100 : ℤ), (0 : ℕ))] = [] ∧
     (∃ d, handle_tpdu 10 false [((0 : ℤ), (100 : ℤ), (0 : ℕ))] =
        [⟨0, 100 - ⌊(10 : ℚ) * 2⌋, "transport", d⟩])) :=
  ⟨by decide, C10_short_tpdu_safe 10 false 0 100 0 (by decide)⟩

end KnxTp1

